import Mathlib

/-!
Shallow embedding of the data-preparation pipeline of a pytorch-lifestream
snapshot: the NSP (Next Sequence Prediction) data module
(dltranz/data_load/data_module/nsp_data_module.py) and the CoLES lightning
module (ptls/lightning_modules/coles_module.py).

Conventions:
- Python floats appearing in configuration (valid_size, trx_dropout) are
  embedded as rationals.
- Python stdlib randomness is embedded by explicit random streams: a
  function receives a list of random draws and is shown to behave as a
  permutation for every stream, which is what the claims need.
- Python module-scope name resolution is embedded explicitly where it
  matters: a module's scope is the list of names its import statements and
  top-level definitions bind; evaluating a global reference first resolves
  the name in that scope and an unbound name raises NameError. Both source
  files reference one global that is bound nowhere in their module scope
  (shuffle_client_list_reproducible in nsp_data_module.py,
  HardNegativePairSelector in coles_module.py).
- Repository code that is imported by the two source files but whose own
  source is not part of the snapshot (padded_collate_wo_target,
  SeqLenFilter) is modelled from the specification text; each such
  definition carries a doc comment starting with "Modelled from the spec".
-/

namespace NspDataModule

/-- Modelled from the spec: padded_collate_wo_target (imported from
dltranz.data_load, source not in the snapshot) pads and stacks a list of
feature records into one batch, preserving batch order and batch size.
At the level of abstraction of the claims (which only speak about which
records appear and in which order) it is the identity on the list of
records. -/
def padded_collate_wo_target {α : Type} (batch : List α) : List α := batch

/-- Embedding of Python random.shuffle (stdlib, external): a shuffle driven
by an explicit stream of random draws rs. Each step picks position
(r mod length) of the remaining list, emits that element and recurses on
the rest; when the stream is exhausted the remaining suffix is kept as is.
For every stream the result is a permutation of the input, which is the
only property of random.shuffle the source relies on. -/
def randomShuffle {α : Type} : List Nat → List α → List α
  | [], xs => xs
  | _ :: _, [] => []
  | r :: rs, x :: xs =>
    let l := x :: xs
    let i := r % l.length
    l.get ⟨i, Nat.mod_lt r (Nat.succ_pos xs.length)⟩ :: randomShuffle rs (l.eraseIdx i)

/-- Embedding of collate_nsp_pairs (nsp_data_module.py lines 47-66).
Input: a batch of (left, right) view pairs and the random stream feeding
random.shuffle. Output: ((collated lefts, collated rights), targets).
lefts is the left list repeated twice; rights is the right list followed by
a shuffled copy of it; targets is len(batch) ones followed by len(batch)
zeros, cast to float (embedded as rationals). -/
def collate_nsp_pairs {α : Type} (rs : List Nat) (batch : List (α × α)) :
    (List α × List α) × List ℚ :=
  let lefts := batch.map Prod.fst ++ batch.map Prod.fst
  let rights := batch.map Prod.snd
  let rightsShuffled := randomShuffle rs rights
  let rightsAll := rights ++ rightsShuffled
  let targets := List.replicate batch.length (1 : ℚ) ++ List.replicate batch.length (0 : ℚ)
  ((padded_collate_wo_target lefts, padded_collate_wo_target rightsAll), targets)

/-- One row produced by the preliminary pass over the parquet files in
split_by_rows (lines 178-179): only the fields that pass uses are kept,
the value of the id column and the sequence length. -/
structure EntityRecord where
  id : Nat
  seq_len : Nat
deriving DecidableEq

/-- Modelled from the spec: SeqLenFilter (imported on line 37, source not
in the snapshot) "drops records whose sequence length is below a
configured minimum". -/
def SeqLenFilter (min_seq_len : Nat) (rows : List EntityRecord) : List EntityRecord :=
  rows.filter (fun r => min_seq_len ≤ r.seq_len)

/-- The fields of conf.setup that split_by_rows could observe. -/
structure NspSetupConf where
  valid_size : ℚ
  valid_split_seed : Nat

/-- A raised Python exception in the NSP data module. -/
inductive PyExc
  | nameError (nm : String)
deriving DecidableEq

/-- The names bound at module scope in nsp_data_module.py when
split_by_rows runs: the import statements of lines 18-42 bind logging,
random, np, pl, torch, ConfigFactory, DataLoader, tqdm and the dltranz
names listed below, and the module body binds logger, collate_nsp_pairs
and NspDataModuleTrain. Python resolves a global reference against
exactly this scope (plus builtins, which bind none of the names at
issue). shuffle_client_list_reproducible is not among them. -/
def nsp_module_scope : List String :=
  ["logging", "random", "np", "pl", "torch", "ConfigFactory", "DataLoader", "tqdm",
   "sequence_pair_augmentation", "IterableAugmentations", "IterableChain",
   "augmentation_chain", "padded_collate_wo_target", "DropoutTrx", "CategorySizeClip",
   "FeatureFilter", "FeatureTypeCast", "IdFilter", "IterableShuffle", "SeqLenFilter",
   "ListSplitter", "ParquetDataset", "ParquetFiles", "PartitionedDataset",
   "PartitionedDataFiles", "split_strategy", "nested_list_to_flat_with_collate",
   "IterableSplittingDataset", "MapSplittingDataset", "logger", "collate_nsp_pairs",
   "NspDataModuleTrain"]

/-- The global name referenced by split_by_rows at line 180. -/
def shuffleClientListReproducibleName : String := "shuffle_client_list_reproducible"

/-- Embedding of NspDataModuleTrain.split_by_rows (nsp_data_module.py
lines 168-198). Lines 178-179 collect the rows surviving
SeqLenFilter(min_seq_len) from the parquet files. Line 180 then evaluates
shuffle_client_list_reproducible(...): Python first resolves that global
name in the module scope, and the name is bound nowhere in
nsp_data_module.py (neither imported in lines 18-42 nor defined in the
module, and it is no builtin), so every call raises NameError there,
before the reproducible shuffle, the numpy index choice of lines 188-190
or the partition of lines 193-194 is computed. The branch where the name
is bound is unreachable; its value is a stub that no theorem relies on. -/
def split_by_rows (setup_conf : NspSetupConf) (min_seq_len : Nat)
    (data_rows : List EntityRecord) : Except PyExc (List Nat × List Nat) :=
  let list_ids := SeqLenFilter min_seq_len data_rows
  if shuffleClientListReproducibleName ∈ nsp_module_scope then
    Except.ok (list_ids.map EntityRecord.id, [])
  else
    Except.error (PyExc.nameError shuffleClientListReproducibleName)

/-- The configuration fields prepare_data and its helpers dispatch on. -/
structure NspConf where
  tp : String
  has_dataset_files : Bool
  has_dataset_parts : Bool
  split_by : String

/-- The configuration errors raised during prepare_data. -/
inductive SetupError
  | missingDataset
  | unknownSplitStrategy (split_by : String)
  | rowsSplitNotSupportedForParts
deriving DecidableEq

/-- Embedding of NspDataModuleTrain.setup_iterable_files (lines 99-138):
split_by = files builds a ListSplitter over the parquet files, split_by =
rows runs split_by_rows; any other value raises AttributeError (unknown
split strategy). Dataset construction itself is outside the claims and is
embedded as success. -/
def setup_iterable_files (c : NspConf) : Except SetupError Unit :=
  if c.split_by = "files" then Except.ok ()
  else if c.split_by = "rows" then Except.ok ()
  else Except.error (SetupError.unknownSplitStrategy c.split_by)

/-- Embedding of NspDataModuleTrain.setup_iterable_parts (lines 140-166):
split_by = hash_id splits the hash partitions, split_by = rows raises
NotImplementedError (rows split unsupported for partitioned data), any
other value raises AttributeError (unknown split strategy). -/
def setup_iterable_parts (c : NspConf) : Except SetupError Unit :=
  if c.split_by = "hash_id" then Except.ok ()
  else if c.split_by = "rows" then Except.error SetupError.rowsSplitNotSupportedForParts
  else Except.error (SetupError.unknownSplitStrategy c.split_by)

/-- Embedding of NspDataModuleTrain.prepare_data (lines 88-97): dispatches
on which dataset definition is present in conf.setup; with neither
dataset_files nor dataset_parts it raises AttributeError (missing dataset
definition). The trailing setup_map call for the map type performs no
configuration validation and is embedded as success. -/
def prepare_data (c : NspConf) : Except SetupError Unit := do
  if c.has_dataset_files then setup_iterable_files c
  else if c.has_dataset_parts then setup_iterable_parts c
  else Except.error SetupError.missingDataset

/-- The augmentation stages build_augmentations can yield. -/
inductive AugStage
  | dropoutTrx (trx_dropout : ℚ)
  | sequencePairAugmentation
deriving DecidableEq

/-- Recognizer for the DropoutTrx stage. -/
def AugStage.isDropoutTrx : AugStage → Bool
  | AugStage.dropoutTrx _ => true
  | _ => false

/-- Embedding of NspDataModuleTrain.build_augmentations (lines 227-230), a
generator embedded as the list of yielded stages: DropoutTrx(trx_dropout)
is yielded only for part = train, then sequence_pair_augmentation is
yielded for every part. -/
def build_augmentations (trx_dropout : ℚ) (part : String) : List AugStage :=
  (if part = "train" then [AugStage.dropoutTrx trx_dropout] else [])
    ++ [AugStage.sequencePairAugmentation]

/-- The per-split loader configuration fields the dataloaders read. -/
structure LoaderConf where
  num_workers : Nat
  batch_size : Nat

/-- The DataLoader construction arguments the claims observe. -/
structure DataLoaderArgs where
  shuffle : Bool
  num_workers : Nat
  batch_size : Nat
deriving DecidableEq

/-- Embedding of NspDataModuleTrain.train_dataloader (lines 249-260): the
DataLoader is constructed with shuffle = False for the iterable type and
shuffle = True otherwise (i.e. for the map type). -/
def train_dataloader (tp : String) (train_conf : LoaderConf) : DataLoaderArgs :=
  { shuffle := if tp = "iterable" then false else true,
    num_workers := train_conf.num_workers,
    batch_size := train_conf.batch_size }

/-- Embedding of NspDataModuleTrain.val_dataloader (lines 262-272): no
shuffle argument is passed to the DataLoader, whose default (external
library) is shuffle = False, for every configuration type. -/
def val_dataloader (tp : String) (valid_conf : LoaderConf) : DataLoaderArgs :=
  { shuffle := false,
    num_workers := valid_conf.num_workers,
    batch_size := valid_conf.batch_size }

end NspDataModule

namespace ColesModule

/-- The names bound at module scope in ptls/lightning_modules/coles_module.py
when the class body runs: the four imported names (lines 1-4) and the class
being defined. Python name resolution for a global reference searches
exactly this scope (no enclosing scope binds anything here, and the name at
issue is not a builtin). -/
def coles_module_scope : List String :=
  ["instantiate", "ABSModule", "ContrastiveLoss", "BatchRecallTopPL", "CoLESModule"]

/-- The global name referenced by the default-loss branch. -/
def hardNegativePairSelectorName : String := "HardNegativePairSelector"

/-- The loss value CoLESModule.__init__ ends up passing to super().__init__:
either the caller's loss or the default ContrastiveLoss(margin=0.5,
sampling_strategy=HardNegativePairSelector(neg_count=5)). -/
inductive LossSpec
  | provided
  | contrastiveLoss (margin : ℚ) (neg_count : Nat)
deriving DecidableEq

/-- A raised Python exception. -/
inductive PyExc
  | nameError (nm : String)
deriving DecidableEq

/-- Embedding of the loss-defaulting logic of CoLESModule.__init__
(coles_module.py lines 15-18): with loss=None the code evaluates
HardNegativePairSelector(neg_count=5), which first resolves the global
name HardNegativePairSelector in the module scope; an unbound name raises
NameError, otherwise the default ContrastiveLoss would be built. -/
def colesInitLoss (loss : Option LossSpec) : Except PyExc LossSpec :=
  match loss with
  | some l => Except.ok l
  | none =>
    if hardNegativePairSelectorName ∈ coles_module_scope then
      Except.ok (LossSpec.contrastiveLoss (1 / 2) 5)
    else
      Except.error (PyExc.nameError hardNegativePairSelectorName)

end ColesModule

namespace NspDataModule

/-- Ten input rows with pairwise distinct ids 0..9. -/
def rows10 : List EntityRecord :=
  [⟨0, 1⟩, ⟨1, 1⟩, ⟨2, 1⟩, ⟨3, 1⟩, ⟨4, 1⟩, ⟨5, 1⟩, ⟨6, 1⟩, ⟨7, 1⟩, ⟨8, 1⟩, ⟨9, 1⟩]

/-- Four input rows with pairwise distinct ids 1..4. -/
def rows4 : List EntityRecord := [⟨1, 5⟩, ⟨2, 5⟩, ⟨3, 5⟩, ⟨4, 5⟩]

/-- Two input rows with distinct ids. -/
def rows2 : List EntityRecord := [⟨1, 1⟩, ⟨2, 1⟩]

end NspDataModule

namespace NspDataModule

theorem cons_eraseIdx_perm {α : Type} : ∀ (l : List α) (i : Nat) (h : i < l.length),
    List.Perm (l.get ⟨i, h⟩ :: l.eraseIdx i) l
  | _ :: _, 0, _ => List.Perm.refl _
  | a :: t, i + 1, h =>
    List.Perm.trans (List.Perm.swap a _ _)
      (List.Perm.cons a (cons_eraseIdx_perm t i (Nat.lt_of_succ_lt_succ h)))

theorem randomShuffle_perm {α : Type} : ∀ (rs : List Nat) (xs : List α),
    List.Perm (randomShuffle rs xs) xs
  | [], _ => List.Perm.refl _
  | _ :: _, [] => List.Perm.refl _
  | r :: rs, x :: xs => by
    simp only [randomShuffle]
    exact List.Perm.trans
      (List.Perm.cons _ (randomShuffle_perm rs _))
      (cons_eraseIdx_perm (x :: xs) _ _)

theorem randomShuffle_length {α : Type} (rs : List Nat) (xs : List α) :
    (randomShuffle rs xs).length = xs.length :=
  (randomShuffle_perm rs xs).length_eq

end NspDataModule

namespace NspDataModule

/-- C1: for every input batch of n (left, right) view pairs and every
random stream, collate_nsp_pairs returns collated lefts, collated rights
and a label tensor that each have exactly 2 n entries, and the label
tensor is n ones followed by n zeros in that fixed order. -/
theorem collate_nsp_pairs_doubles_and_labels {α : Type} (rs : List Nat)
    (batch : List (α × α)) :
    (collate_nsp_pairs rs batch).2
        = List.replicate batch.length (1 : ℚ) ++ List.replicate batch.length (0 : ℚ)
      ∧ (collate_nsp_pairs rs batch).2.length = 2 * batch.length
      ∧ (collate_nsp_pairs rs batch).1.1.length = 2 * batch.length
      ∧ (collate_nsp_pairs rs batch).1.2.length = 2 * batch.length := by
  refine ⟨rfl, ?_, ?_, ?_⟩ <;>
    simp [collate_nsp_pairs, padded_collate_wo_target, randomShuffle_length] <;>
    omega

/-- C2: in the 2 n examples produced by collate_nsp_pairs, the left-side
list of the second half equals the left-side list of the first half (both
are the input batch's left views in order), and the right-side list of the
second half is a permutation of the right-side list of the first half. -/
theorem collate_nsp_pairs_halves {α : Type} (rs : List Nat) (batch : List (α × α)) :
    (collate_nsp_pairs rs batch).1.1.take batch.length = batch.map Prod.fst
      ∧ (collate_nsp_pairs rs batch).1.1.drop batch.length = batch.map Prod.fst
      ∧ (collate_nsp_pairs rs batch).1.2.take batch.length = batch.map Prod.snd
      ∧ List.Perm ((collate_nsp_pairs rs batch).1.2.drop batch.length)
          ((collate_nsp_pairs rs batch).1.2.take batch.length) := by
  have hl : (batch.map (Prod.fst (α := α) (β := α))).length = batch.length :=
    List.length_map batch Prod.fst
  have hr : (batch.map (Prod.snd (α := α) (β := α))).length = batch.length :=
    List.length_map batch Prod.snd
  have hre : (collate_nsp_pairs rs batch).1.2
      = batch.map Prod.snd ++ randomShuffle rs (batch.map Prod.snd) := rfl
  refine ⟨List.take_left' hl, List.drop_left' hl, List.take_left' hr, ?_⟩
  rw [hre, List.drop_left' hr, List.take_left' hr]
  exact randomShuffle_perm rs (batch.map Prod.snd)

end NspDataModule

namespace NspDataModule

/-- C3 (code bug): split_by_rows never returns the documented disjoint and
exhaustive (train, valid) partition: for every configuration, minimum
sequence length and input row list, evaluating the call at line 180 raises
NameError for the unbound global shuffle_client_list_reproducible, so no
id is ever assigned to either list. -/
theorem split_by_rows_raises_name_error (setup_conf : NspSetupConf)
    (min_seq_len : Nat) (data_rows : List EntityRecord) :
    split_by_rows setup_conf min_seq_len data_rows
      = Except.error (PyExc.nameError shuffleClientListReproducibleName) := by
  rw [show split_by_rows setup_conf min_seq_len data_rows
      = (if shuffleClientListReproducibleName ∈ nsp_module_scope then
          Except.ok ((SeqLenFilter min_seq_len data_rows).map EntityRecord.id, [])
        else Except.error (PyExc.nameError shuffleClientListReproducibleName)) from rfl]
  rw [if_neg (by decide)]

/-- C4 (code bug): at the concrete input of ten rows with distinct ids and
valid_size 0.19, the split never reaches the int(len(list_ids) *
valid_size) selection: the call raises NameError at line 180, so no
number of validation ids — neither the truncation 1 nor the nearest
rounding 2 of 0.19 * 10 — is ever selected. -/
theorem split_by_rows_rows10_no_selection :
    split_by_rows ⟨19/100, 7⟩ 0 rows10
      = Except.error (PyExc.nameError shuffleClientListReproducibleName) := by
  rw [show split_by_rows ⟨19/100, 7⟩ 0 rows10
      = (if shuffleClientListReproducibleName ∈ nsp_module_scope then
          Except.ok ((SeqLenFilter 0 rows10).map EntityRecord.id, [])
        else Except.error (PyExc.nameError shuffleClientListReproducibleName)) from rfl]
  rw [if_neg (by decide)]

/-- C5 (code bug): at a concrete fixed configuration and input, each run
of split_by_rows produces the NameError for the unbound global — the two
runs of the pure embedding agree, but on no run is an identical (or any)
(train, valid) partition produced, contrary to the claim. -/
theorem split_by_rows_rows2_name_error_each_run :
    split_by_rows ⟨1/2, 7⟩ 0 rows2
      = Except.error (PyExc.nameError shuffleClientListReproducibleName) := by
  rw [show split_by_rows ⟨1/2, 7⟩ 0 rows2
      = (if shuffleClientListReproducibleName ∈ nsp_module_scope then
          Except.ok ((SeqLenFilter 0 rows2).map EntityRecord.id, [])
        else Except.error (PyExc.nameError shuffleClientListReproducibleName)) from rfl]
  rw [if_neg (by decide)]

/-- C6 (code bug): the configured setup.valid_split_seed never gets the
chance to determine which ids land in valid: with the same rows and two
different configured seed values, both calls raise NameError at line 180
and no valid set is computed from either seed. -/
theorem split_by_rows_seed_never_reaches_split :
    split_by_rows ⟨1/2, 1⟩ 0 rows4
        = Except.error (PyExc.nameError shuffleClientListReproducibleName)
      ∧ split_by_rows ⟨1/2, 2⟩ 0 rows4
        = Except.error (PyExc.nameError shuffleClientListReproducibleName) := by
  constructor
  · rw [show split_by_rows ⟨1/2, 1⟩ 0 rows4
        = (if shuffleClientListReproducibleName ∈ nsp_module_scope then
            Except.ok ((SeqLenFilter 0 rows4).map EntityRecord.id, [])
          else Except.error (PyExc.nameError shuffleClientListReproducibleName)) from rfl]
    rw [if_neg (by decide)]
  · rw [show split_by_rows ⟨1/2, 2⟩ 0 rows4
        = (if shuffleClientListReproducibleName ∈ nsp_module_scope then
            Except.ok ((SeqLenFilter 0 rows4).map EntityRecord.id, [])
          else Except.error (PyExc.nameError shuffleClientListReproducibleName)) from rfl]
    rw [if_neg (by decide)]

end NspDataModule

namespace NspDataModule

/-- C7: configuration errors are raised by prepare_data itself, before any
batch is produced: with neither dataset_files nor dataset_parts configured
it raises the missing-dataset AttributeError; with dataset_files and an
unrecognized split_by it raises the unknown-split-strategy AttributeError;
with dataset_parts and an unrecognized split_by likewise; and with
dataset_parts and split_by = rows it raises NotImplementedError. -/
theorem prepare_data_config_errors (c : NspConf) :
    (c.has_dataset_files = false → c.has_dataset_parts = false →
      prepare_data c = Except.error SetupError.missingDataset)
    ∧ (c.has_dataset_files = true → c.split_by ≠ "files" → c.split_by ≠ "rows" →
      prepare_data c = Except.error (SetupError.unknownSplitStrategy c.split_by))
    ∧ (c.has_dataset_files = false → c.has_dataset_parts = true →
        c.split_by ≠ "hash_id" → c.split_by ≠ "rows" →
      prepare_data c = Except.error (SetupError.unknownSplitStrategy c.split_by))
    ∧ (c.has_dataset_files = false → c.has_dataset_parts = true → c.split_by = "rows" →
      prepare_data c = Except.error SetupError.rowsSplitNotSupportedForParts) := by
  refine ⟨?_, ?_, ?_, ?_⟩
  · intro hf hp
    simp [prepare_data, hf, hp]
  · intro hf h2 h3
    simp [prepare_data, hf, setup_iterable_files, h2, h3]
  · intro hf hp h2 h3
    simp [prepare_data, hf, hp, setup_iterable_parts, h2, h3]
  · intro hf hp h2
    simp [prepare_data, hf, hp, setup_iterable_parts, h2]

/-- C7 witness: the three error classes produced at four concrete
configurations, each hypothesis discharged by computation. -/
theorem prepare_data_config_errors_witness :
    prepare_data ⟨"map", false, false, "rows"⟩ = Except.error SetupError.missingDataset
    ∧ prepare_data ⟨"map", true, false, "bogus"⟩
        = Except.error (SetupError.unknownSplitStrategy "bogus")
    ∧ prepare_data ⟨"map", false, true, "bogus"⟩
        = Except.error (SetupError.unknownSplitStrategy "bogus")
    ∧ prepare_data ⟨"map", false, true, "rows"⟩
        = Except.error SetupError.rowsSplitNotSupportedForParts :=
  ⟨(prepare_data_config_errors ⟨"map", false, false, "rows"⟩).1 rfl rfl,
   (prepare_data_config_errors ⟨"map", true, false, "bogus"⟩).2.1 rfl
     (by decide) (by decide),
   (prepare_data_config_errors ⟨"map", false, true, "bogus"⟩).2.2.1 rfl rfl
     (by decide) (by decide),
   (prepare_data_config_errors ⟨"map", false, true, "rows"⟩).2.2.2 rfl rfl rfl⟩

/-- C8: the augmentation chain built for part = train contains the
DropoutTrx stage, and the chain built for part = valid contains no
DropoutTrx stage, for every configured dropout fraction. -/
theorem build_augmentations_dropout_only_train (trx_dropout : ℚ) :
    AugStage.dropoutTrx trx_dropout ∈ build_augmentations trx_dropout "train"
    ∧ ∀ s ∈ build_augmentations trx_dropout "valid", AugStage.isDropoutTrx s = false := by
  constructor
  · simp [build_augmentations]
  · intro s hs
    simp only [build_augmentations] at hs
    rw [if_neg (by decide)] at hs
    simp at hs
    rw [hs]
    rfl

/-- C9: in map mode the train dataloader is constructed with shuffle
enabled, and the validation dataloader is constructed with shuffle
disabled in every mode. -/
theorem dataloaders_shuffle_policy (tp : String) (train_conf valid_conf : LoaderConf) :
    (train_dataloader "map" train_conf).shuffle = true
    ∧ (val_dataloader tp valid_conf).shuffle = false := by
  constructor
  · show (if ("map" : String) = "iterable" then false else true) = true
    rw [if_neg (by decide)]
  · rfl

end NspDataModule

namespace ColesModule

/-- C10: constructing CoLESModule with loss=None reaches the default-loss
branch, whose name HardNegativePairSelector is bound nowhere in the module
scope, so the construction raises NameError for that name instead of
producing the documented default ContrastiveLoss. -/
theorem coles_default_loss_name_error :
    colesInitLoss none = Except.error (PyExc.nameError hardNegativePairSelectorName) := by
  rw [show colesInitLoss none
      = (if hardNegativePairSelectorName ∈ coles_module_scope then
          Except.ok (LossSpec.contrastiveLoss (1 / 2) 5)
        else Except.error (PyExc.nameError hardNegativePairSelectorName)) from rfl]
  rw [if_neg (by decide)]

end ColesModule

namespace NspDataModule

/-- C8 witness: the dropout-only-in-train theorem applied at dropout
fraction 1/10, the valid-side membership hypothesis discharged at the
sequence-pair stage, the only stage of the valid chain. -/
theorem build_augmentations_dropout_only_train_witness :
    AugStage.dropoutTrx (1/10) ∈ build_augmentations (1/10) "train"
    ∧ AugStage.isDropoutTrx AugStage.sequencePairAugmentation = false :=
  ⟨(build_augmentations_dropout_only_train (1/10)).1,
   (build_augmentations_dropout_only_train (1/10)).2 AugStage.sequencePairAugmentation
     (by decide)⟩

end NspDataModule
